import Mathlib

/-!
Shallow embedding of `cdist/log.py` (skonfig): a leveled logging facility
built on Python's standard `logging` module.  Numeric level constants,
the verbosity-to-level table, the stream handlers with their filters, the
formatter with optional ANSI colorization, the presentation variants
(timestamping / parallel), and the module-level setup operations are
translated here as executable Lean definitions, followed by theorems about
them.
-/

namespace CdistLog

/-! ## Numeric level constants

Values of the Python standard `logging` module, which `cdist/log.py`
imports and extends. -/

def CRITICAL : Nat := 50
def ERROR : Nat := 40
def WARNING : Nat := 30
def INFO : Nat := 20
def DEBUG : Nat := 10

/-- Source: `logging.OFF = logging.CRITICAL + 10`. -/
def OFF : Nat := CRITICAL + 10

/-- Source: `logging.VERBOSE = logging.INFO - 5`. -/
def VERBOSE : Nat := INFO - 5

/-- Source: `logging.TRACE = logging.DEBUG - 5`. -/
def TRACE : Nat := DEBUG - 5

/-- The ordered scale of levels named by the module (the five stdlib
emitting levels it uses plus OFF, VERBOSE, TRACE). -/
inductive Level
  | off
  | error
  | warning
  | info
  | verbose
  | debug
  | trace
deriving DecidableEq, Repr, Fintype

/-- Numeric value of each level of the scale. -/
def levelno : Level → Nat
  | .off => OFF
  | .error => ERROR
  | .warning => WARNING
  | .info => INFO
  | .verbose => VERBOSE
  | .debug => DEBUG
  | .trace => TRACE

/-- Position of a level in the permissiveness ordering
OFF < ERROR < WARNING < INFO < VERBOSE < DEBUG < TRACE: position 0 is the
least permissive (OFF), position 6 the most permissive (TRACE). -/
def perm : Level → Nat
  | .off => 0
  | .error => 1
  | .warning => 2
  | .info => 3
  | .verbose => 4
  | .debug => 5
  | .trace => 6

/-- The effective-level gate of `logging.Logger.isEnabledFor`: a record at
numeric level `recLevelno` passes a logger whose effective level is
`effective` iff `recLevelno >= effective`. -/
def passesGate (recLevelno effective : Nat) : Bool :=
  decide (effective ≤ recLevelno)

/-! ## Verbosity-to-level table

Source: `_verbosity_level = collections.defaultdict(lambda: logging.TRACE,
{None: WARNING, -2: OFF, -1: ERROR, 0: WARNING, 1: INFO, 2: VERBOSE,
3: DEBUG, 4: TRACE})`.  A `defaultdict` lookup of any key not listed
returns the default factory's value, here `TRACE`. -/
def verbosity_level : Option Int → Nat
  | none => WARNING
  | some v =>
    if v = -2 then OFF
    else if v = -1 then ERROR
    else if v = 0 then WARNING
    else if v = 1 then INFO
    else if v = 2 then VERBOSE
    else if v = 3 then DEBUG
    else if v = 4 then TRACE
    else TRACE

/-! ## Handlers and stream routing -/

inductive StreamId
  | stdout
  | stderr
deriving DecidableEq, Repr

/-- Source: `DefaultLog.StdoutFilter.filter(rec) = (rec.levelno != logging.ERROR)`. -/
def StdoutFilter (rec_levelno : Nat) : Bool :=
  rec_levelno != ERROR

/-- Source: `DefaultLog.StderrFilter.filter(rec) = (rec.levelno == logging.ERROR)`. -/
def StderrFilter (rec_levelno : Nat) : Bool :=
  rec_levelno == ERROR

/-- A stream handler as configured in `DefaultLog.__init__`: the target
stream, the handler level set with `setLevel`, and the level predicate of
the single attached filter. -/
structure Handler where
  stream : StreamId
  level : Nat
  filterPred : Nat → Bool

/-- The two handlers built by `DefaultLog.__init__`: a stdout handler at
level TRACE with a `StdoutFilter`, and a stderr handler at level ERROR
with a `StderrFilter` (in this order of `addHandler` calls). -/
def defaultLogHandlers : List Handler :=
  [⟨StreamId.stdout, TRACE, StdoutFilter⟩, ⟨StreamId.stderr, ERROR, StderrFilter⟩]

/-- Whether a handler writes a record of numeric level `n`:
`Logger.callHandlers` requires `record.levelno >= handler.level`, then
`Handler.handle` applies the handler's filters. -/
def handlerEmits (h : Handler) (n : Nat) : Bool :=
  decide (h.level ≤ n) && h.filterPred n

/-- The streams a record of numeric level `n` is written to by
`Logger.callHandlers`: the logger's own handlers, followed by ancestor
handlers only when `propagate` is set. -/
def callHandlersStreams (own : List Handler) (propagate : Bool)
    (ancestors : List Handler) (n : Nat) : List StreamId :=
  ((own ++ if propagate then ancestors else []).filter
    (fun h => handlerEmits h n)).map Handler.stream

/-! ## Records, level names and the formatter -/

/-- The fields of a `logging.LogRecord` that this module's templates and
color lookup read: `levelno` (with `levelname` derived from it), `name`,
`msg`/`message`, and `process`. -/
structure LogRecord where
  levelno : Nat
  name : String
  msg : String
  process : Nat

/-- The name registry built by the stdlib presets together with the three
`logging.addLevelName` calls of the module (`OFF`, `VERBOSE`, `TRACE`). -/
def getLevelName (n : Nat) : String :=
  if n = OFF then "OFF"
  else if n = CRITICAL then "CRITICAL"
  else if n = ERROR then "ERROR"
  else if n = WARNING then "WARNING"
  else if n = INFO then "INFO"
  else if n = VERBOSE then "VERBOSE"
  else if n = DEBUG then "DEBUG"
  else if n = TRACE then "TRACE"
  else "Level " ++ toString n

/-- Source: `CdistFormatter.USE_COLORS = False` (the class default). -/
def USE_COLORS : Bool := false

/-- Source: `CdistFormatter.RESET = '\033[0m'`. -/
def RESET : String := "\x1b[0m"

/-- Source: `CdistFormatter.COLOR_MAP`, a dict from level names to ANSI
color codes; `dict.get` yields `None` for any other key. -/
def COLOR_MAP : String → Option String
  | "ERROR" => some "\x1b[0;31m"
  | "WARNING" => some "\x1b[0;33m"
  | "INFO" => some "\x1b[0;94m"
  | "VERBOSE" => some "\x1b[0;34m"
  | "DEBUG" => some "\x1b[0;90m"
  | "TRACE" => some "\x1b[0;37m"
  | _ => none

/-- Rendering of `DefaultLog.FORMAT = '%(levelname)s: %(name)s: %(message)s'`
applied to a record. -/
def formatDefault (r : LogRecord) : String :=
  getLevelName r.levelno ++ ": " ++ r.name ++ ": " ++ r.msg

/-- Rendering of
`ParallelLog.FORMAT = '%(levelname)s: [%(process)d]: %(name)s: %(message)s'`
applied to a record. -/
def formatParallel (r : LogRecord) : String :=
  getLevelName r.levelno ++ ": [" ++ toString r.process ++ "]: "
    ++ r.name ++ ": " ++ r.msg

/-- Source: `CdistFormatter.format`: first `super().format(record)` renders
the record through the handler's format template `fmt`; then, only when
`USE_COLORS` is set, the line is wrapped in `COLOR_MAP.get(record.levelname)`
and `RESET` when that lookup finds a color. -/
def CdistFormatter_format (useColors : Bool) (fmt : LogRecord → String)
    (r : LogRecord) : String :=
  let msg := fmt r
  if useColors then
    match COLOR_MAP (getLevelName r.levelno) with
    | some color => color ++ msg ++ RESET
    | none => msg
  else msg

/-! ## Timestamps and the logger-level filter stage -/

/-- A broken-down local time as `datetime.datetime.now()` returns it. -/
structure DateTime where
  year : Nat
  month : Nat
  day : Nat
  hour : Nat
  minute : Nat
  second : Nat
  microsecond : Nat

/-- Decimal rendering of `n` left-padded with zeros to width `w`, as the
numeric `strftime` directives produce. -/
def padNum (w n : Nat) : String :=
  let s := toString n
  String.mk (List.replicate (w - s.length) '0') ++ s

/-- Source: `now.strftime("%Y%m%d%H%M%S.%f")`. -/
def strftimeTimestamp (t : DateTime) : String :=
  padNum 4 t.year ++ padNum 2 t.month ++ padNum 2 t.day
    ++ padNum 2 t.hour ++ padNum 2 t.minute ++ padNum 2 t.second
    ++ "." ++ padNum 6 t.microsecond

/-- The stdlib `Filterer.filter` that `logging.Logger` inherits: the record
is accepted iff every attached filter accepts it. -/
def Logger_filter (filters : List (LogRecord → Bool)) (r : LogRecord) : Bool :=
  filters.all (fun f => f r)

/-- Source: `TimestampingLog.filter`: it calls `super().filter(record)`
discarding the result, prepends `"[" + now.strftime(...) + "] "` to
`record.msg`, and returns `True`.  The pair is (verdict, mutated record). -/
def TimestampingLog_filter (filters : List (LogRecord → Bool))
    (now : DateTime) (r : LogRecord) : Bool × LogRecord :=
  let _ := Logger_filter filters r
  (true, { r with msg := "[" ++ strftimeTimestamp now ++ "] " ++ r.msg })

/-! ## Logger variants -/

/-- The four concrete logger classes of the module. -/
inductive Variant
  | DefaultLog
  | TimestampingLog
  | ParallelLog
  | TimestampingParallelLog
deriving DecidableEq, Repr

/-- The `FORMAT` class attribute each variant resolves to:
`TimestampingLog` defines none, so it inherits `DefaultLog.FORMAT`;
`TimestampingParallelLog` defines none, and its method resolution order
`(TimestampingLog, ParallelLog, DefaultLog)` finds `ParallelLog.FORMAT`. -/
def variantFORMAT : Variant → (LogRecord → String)
  | .DefaultLog => formatDefault
  | .TimestampingLog => formatDefault
  | .ParallelLog => formatParallel
  | .TimestampingParallelLog => formatParallel

/-- Whether the variant's `filter` method is `TimestampingLog.filter`
(true for `TimestampingLog` and, through its method resolution order, for
`TimestampingParallelLog`; `TimestampingParallelLog` adds no code of its
own — its class body is `pass`). -/
def hasTimestampFilter : Variant → Bool
  | .DefaultLog => false
  | .TimestampingLog => true
  | .ParallelLog => false
  | .TimestampingParallelLog => true

/-- The presentation pipeline for one record on a logger with no attached
filter objects: `Logger.handle` runs the logger's `filter` once (which on
the timestamping variants mutates `record.msg`), then the handler's
formatter renders the record through the variant's template. -/
def renderRecord (v : Variant) (now : DateTime) (r : LogRecord) : String :=
  let r2 := if hasTimestampFilter v then (TimestampingLog_filter [] now r).2 else r
  variantFORMAT v r2

/-- The state `DefaultLog.__init__(name)` establishes on a fresh logger:
`propagate = False` and the two handlers of `defaultLogHandlers`.  All four
variants inherit this constructor unchanged. -/
structure BuiltLogger where
  name : String
  propagate : Bool
  handlers : List Handler
  render : LogRecord → String
  timestamps : Bool

def buildLogger (v : Variant) (nm : String) : BuiltLogger :=
  { name := nm
    propagate := false
    handlers := defaultLogHandlers
    render := variantFORMAT v
    timestamps := hasTimestampFilter v }

/-! ## Module-level setup operations -/

/-- The process-wide state the setup operations touch: the root logger's
handler list (`logging.getLogger().handlers`) and the class installed with
`logging.setLoggerClass`; `constructed` records the loggers already built
by the registry, which no setup operation revisits. -/
structure LoggingState where
  rootHandlers : List Handler
  loggerClass : Variant
  constructed : List BuiltLogger

/-- Source: `setupDefaultLogging`: `del logging.getLogger().handlers[:]`
then `logging.setLoggerClass(DefaultLog)`. -/
def setupDefaultLogging (s : LoggingState) : LoggingState :=
  { s with rootHandlers := [], loggerClass := Variant.DefaultLog }

/-- Source: `setupTimestampingLogging`. -/
def setupTimestampingLogging (s : LoggingState) : LoggingState :=
  { s with rootHandlers := [], loggerClass := Variant.TimestampingLog }

/-- Source: `setupTimestampingParallelLogging`. -/
def setupTimestampingParallelLogging (s : LoggingState) : LoggingState :=
  { s with rootHandlers := [], loggerClass := Variant.TimestampingParallelLog }

/-- Source: `setupParallelLogging`. -/
def setupParallelLogging (s : LoggingState) : LoggingState :=
  { s with rootHandlers := [], loggerClass := Variant.ParallelLog }

inductive SetupOp
  | defaultLogging
  | timestampingLogging
  | timestampingParallelLogging
  | parallelLogging
deriving DecidableEq, Repr

def variantOf : SetupOp → Variant
  | .defaultLogging => .DefaultLog
  | .timestampingLogging => .TimestampingLog
  | .timestampingParallelLogging => .TimestampingParallelLog
  | .parallelLogging => .ParallelLog

def runSetup : SetupOp → LoggingState → LoggingState
  | .defaultLogging => setupDefaultLogging
  | .timestampingLogging => setupTimestampingLogging
  | .timestampingParallelLogging => setupTimestampingParallelLogging
  | .parallelLogging => setupParallelLogging

/-- `logging.getLogger(name)` when `name` is not yet registered: the
registry instantiates the currently installed logger class. -/
def getLogger (s : LoggingState) (nm : String) : BuiltLogger × LoggingState :=
  let lg := buildLogger s.loggerClass nm
  (lg, { s with constructed := s.constructed ++ [lg] })

/-- The setup calls the module's top level makes: exactly the single
`setupDefaultLogging()` on its last line. -/
def moduleLoadCalls : List SetupOp := [SetupOp.defaultLogging]

/-- The module-import effect on the logging state. -/
def moduleInit (s : LoggingState) : LoggingState :=
  moduleLoadCalls.foldl (fun t op => runSetup op t) s

/-! ## Positional-argument passing of the patched level methods -/

/-- A Python value as far as argument passing to `Logger.log` is concerned:
strings, integers, and tuples.  (No mapping value occurs here, so the
`LogRecord` special case collapsing a 1-tuple holding a mapping never
fires.) -/
inductive PyVal
  | s (v : String)
  | i (v : Int)
  | tup (elems : List PyVal)

/-- The record data `Logger.log(level, msg, *args)` produces: `record.args`
is the tuple of positional arguments received after `msg`. -/
structure CallRecord where
  levelno : Nat
  msg : String
  args : List PyVal

def Logger_log (level : Nat) (msg : String) (args : List PyVal) : CallRecord :=
  ⟨level, msg, args⟩

/-- Source: `_verbose(self, msg, *args, **kwargs)` calls
`self.log(logging.VERBOSE, msg, args, **kwargs)` — the bare name `args`
passes the whole tuple as ONE positional argument, so `Logger.log` receives
the one-element tuple `(args,)`.  Installed as `logging.Logger.verbose`. -/
def patched_verbose (msg : String) (args : List PyVal) : CallRecord :=
  Logger_log VERBOSE msg [PyVal.tup args]

/-- Source: `_trace(self, msg, *args, **kwargs)` calls
`self.log(logging.TRACE, msg, *args, **kwargs)` — unpacked.  Installed as
`logging.Logger.trace`. -/
def patched_trace (msg : String) (args : List PyVal) : CallRecord :=
  Logger_log TRACE msg args

/-- Source: `DefaultLog.verbose` calls
`self.log(logging.VERBOSE, msg, *args, **kwargs)` — unpacked. -/
def DefaultLog_verbose (msg : String) (args : List PyVal) : CallRecord :=
  Logger_log VERBOSE msg args

/-- Source: `DefaultLog.trace` calls
`self.log(logging.TRACE, msg, *args, **kwargs)` — unpacked. -/
def DefaultLog_trace (msg : String) (args : List PyVal) : CallRecord :=
  Logger_log TRACE msg args

/-! ## Helper lemmas -/

theorem trace_le_levelno (L : Level) : TRACE ≤ levelno L := by
  cases L <;> decide

/-- Routing of a record at numeric level `n ≥ TRACE` through the two
handlers of `DefaultLog.__init__` with propagation disabled. -/
theorem defaultLog_routing (n : Nat) (h5 : TRACE ≤ n) (anc : List Handler) :
    callHandlersStreams defaultLogHandlers false anc n
      = if n = ERROR then [StreamId.stderr] else [StreamId.stdout] := by
  by_cases hn : n = ERROR
  · subst hn
    simp [callHandlersStreams, defaultLogHandlers, handlerEmits,
      StdoutFilter, StderrFilter, TRACE, ERROR, DEBUG]
  · have hd : decide (TRACE ≤ n) = true := decide_eq_true h5
    simp [callHandlersStreams, defaultLogHandlers, handlerEmits,
      StdoutFilter, StderrFilter, hn, hd]

theorem pyval_tup_singleton_ne (a : PyVal) : PyVal.tup [a] ≠ a := by
  intro h
  have hs := congrArg sizeOf h
  simp at hs
  omega

theorem pyval_singleton_tup_ne (l : List PyVal) (h : l ≠ []) :
    [PyVal.tup l] ≠ l := by
  intro he
  cases l with
  | nil => exact h rfl
  | cons a t =>
    cases t with
    | nil =>
      have ha : PyVal.tup [a] = a := by injection he
      exact pyval_tup_singleton_ne a ha
    | cons b t2 =>
      have := congrArg List.length he
      simp at this

/-! ## Claims -/

/-- Claim C1, counterexample: under the claim's permissiveness ordering,
TRACE is at least as permissive as INFO, yet a TRACE record does not pass
an INFO-gated logger; and a logger at effective level OFF does pass (and
write to stdout) a record emitted at level OFF, so it does not emit
nothing at every level of the scale. -/
theorem c1_counterexample :
    perm Level.info ≤ perm Level.trace
  ∧ passesGate (levelno Level.trace) (levelno Level.info) = false
  ∧ passesGate (levelno Level.off) (levelno Level.off) = true
  ∧ callHandlersStreams defaultLogHandlers false [] (levelno Level.off)
      = [StreamId.stdout] := by decide

/-- Claim C1, amended: a record at level X passes a logger gated at
effective level L iff X is at MOST as permissive as L (equivalently, at
least as severe); effective INFO passes exactly ERROR, WARNING, INFO among
the emitting levels and drops VERBOSE, DEBUG, TRACE; a logger at effective
OFF drops every level of the scale except OFF itself; and the numeric
constants OFF = CRITICAL + 10, VERBOSE = INFO - 5, TRACE = DEBUG - 5
realize the strict ordering
TRACE < DEBUG < VERBOSE < INFO < WARNING < ERROR < OFF. -/
theorem c1_level_gate :
    (∀ X L : Level, passesGate (levelno X) (levelno L) = decide (perm X ≤ perm L))
  ∧ (passesGate ERROR INFO = true ∧ passesGate WARNING INFO = true
      ∧ passesGate INFO INFO = true ∧ passesGate VERBOSE INFO = false
      ∧ passesGate DEBUG INFO = false ∧ passesGate TRACE INFO = false)
  ∧ (∀ X : Level, passesGate (levelno X) (levelno Level.off) = decide (X = Level.off))
  ∧ (TRACE < DEBUG ∧ DEBUG < VERBOSE ∧ VERBOSE < INFO ∧ INFO < WARNING
      ∧ WARNING < ERROR ∧ ERROR < OFF)
  ∧ (OFF = CRITICAL + 10 ∧ VERBOSE = INFO - 5 ∧ TRACE = DEBUG - 5) := by
  decide

/-- Claim C2: on every variant, a record that passes the effective-level
gate of a logger whose effective level is a level of the scale is written
to exactly one stream: stderr iff its level equals ERROR, stdout
otherwise; the constructor disables propagation, so ancestor handlers
(quantified arbitrarily here) never receive the record. -/
theorem c2_stream_partition :
    (∀ (v : Variant) (nm : String), (buildLogger v nm).propagate = false)
  ∧ (∀ (v : Variant) (nm : String) (L : Level) (n : Nat)
        (ancestors : List Handler),
      passesGate n (levelno L) = true →
      callHandlersStreams (buildLogger v nm).handlers
          (buildLogger v nm).propagate ancestors n
        = if n = ERROR then [StreamId.stderr] else [StreamId.stdout]) := by
  refine ⟨fun v nm => rfl, fun v nm L n anc h => ?_⟩
  have h5 : TRACE ≤ n := le_trans (trace_le_levelno L) (of_decide_eq_true h)
  simpa [buildLogger] using defaultLog_routing n h5 anc

/-- Claim C2, witness at a WARNING record on an INFO-gated DefaultLog. -/
theorem c2_witness :
    passesGate 30 (levelno Level.info) = true
  ∧ callHandlersStreams (buildLogger Variant.DefaultLog "x").handlers
      (buildLogger Variant.DefaultLog "x").propagate [] 30
      = [StreamId.stdout] := by
  refine ⟨by decide, ?_⟩
  have h := c2_stream_partition.2 Variant.DefaultLog "x" Level.info 30 []
    (by decide)
  simpa using h

/-- Claim C3: the verbosity table maps None to WARNING, -2 to OFF, -1 to
ERROR, 0 to WARNING, 1 to INFO, 2 to VERBOSE, 3 to DEBUG, and every
integer at least 4 to TRACE; None and 0 agree on WARNING. -/
theorem c3_verbosity_table :
    (∀ n : Int, 4 ≤ n → verbosity_level (some n) = TRACE)
  ∧ verbosity_level none = WARNING
  ∧ verbosity_level (some (-2)) = OFF
  ∧ verbosity_level (some (-1)) = ERROR
  ∧ verbosity_level (some 0) = WARNING
  ∧ verbosity_level (some 1) = INFO
  ∧ verbosity_level (some 2) = VERBOSE
  ∧ verbosity_level (some 3) = DEBUG
  ∧ verbosity_level none = verbosity_level (some 0) := by
  refine ⟨?_, by decide, by decide, by decide, by decide, by decide,
    by decide, by decide, by decide⟩
  intro n hn
  simp only [verbosity_level]
  split_ifs <;> first | rfl | (exfalso; omega)

/-- Claim C3, witness at verbosity index 7. -/
theorem c3_witness : (4 : Int) ≤ 7 ∧ verbosity_level (some 7) = TRACE :=
  ⟨by decide, c3_verbosity_table.1 7 (by decide)⟩

/-- Claim C4, counterexample: the defaultdict sends the unlisted index -3
to TRACE while -2 maps to OFF, so the level at -3 is strictly MORE
permissive (numerically smaller) than the level at -2 although -3 < -2:
monotonicity fails below -2. -/
theorem c4_counterexample :
    ((-3 : Int) < -2)
  ∧ verbosity_level (some (-3)) = TRACE
  ∧ verbosity_level (some (-2)) = OFF
  ∧ TRACE < OFF
  ∧ ¬ verbosity_level (some (-2)) ≤ verbosity_level (some (-3)) := by decide

set_option maxHeartbeats 1000000 in
/-- Claim C4, amended: the verbosity-to-level mapping is monotone on the
indices from -2 upward: for -2 ≤ v1 < v2 the level at v1 is at most as
permissive as the level at v2, i.e. numerically at least as large. -/
theorem c4_monotone :
    ∀ v1 v2 : Int, -2 ≤ v1 → v1 < v2 →
      verbosity_level (some v2) ≤ verbosity_level (some v1) := by
  intro v1 v2 h1 h2
  simp only [verbosity_level, OFF, ERROR, WARNING, INFO, VERBOSE, DEBUG,
    TRACE, CRITICAL]
  split_ifs <;> omega

/-- Claim C4, witness at the pair (0, 3). -/
theorem c4_witness :
    (-2 : Int) ≤ 0 ∧ (0 : Int) < 3
  ∧ verbosity_level (some 3) ≤ verbosity_level (some 0) :=
  ⟨by decide, by decide, c4_monotone 0 3 (by decide) (by decide)⟩

/-- Claim C5, counterexample: a record at CRITICAL = 50, strictly more
severe than ERROR, passes a TRACE-gated logger and IS written to the
standard stream (the stdout filter tests only inequality with ERROR and
the stdout handler level is TRACE), so it is not dropped by both sinks. -/
theorem c5_counterexample :
    ERROR < CRITICAL
  ∧ passesGate CRITICAL (levelno Level.trace) = true
  ∧ callHandlersStreams defaultLogHandlers false [] CRITICAL
      = [StreamId.stdout] := by decide

/-- Claim C5, amended: a gate-passing record strictly more severe than
ERROR is dropped by the error sink (whose filter tests exact equality
with ERROR) but written to the standard sink. -/
theorem c5_above_error_to_stdout :
    ∀ (L : Level) (n : Nat) (ancestors : List Handler),
      ERROR < n → passesGate n (levelno L) = true →
      callHandlersStreams defaultLogHandlers false ancestors n
          = [StreamId.stdout]
      ∧ StreamId.stderr ∉ callHandlersStreams defaultLogHandlers false ancestors n := by
  intro L n anc hgt h
  have h5 : TRACE ≤ n := le_trans (trace_le_levelno L) (of_decide_eq_true h)
  have hne : n ≠ ERROR := by omega
  have hr := defaultLog_routing n h5 anc
  rw [if_neg hne] at hr
  refine ⟨hr, ?_⟩
  rw [hr]
  simp

/-- Claim C5, witness at a CRITICAL record on a TRACE-gated logger. -/
theorem c5_witness :
    ERROR < 50 ∧ passesGate 50 (levelno Level.trace) = true
  ∧ callHandlersStreams defaultLogHandlers false [] 50 = [StreamId.stdout] := by
  refine ⟨by decide, by decide, ?_⟩
  exact (c5_above_error_to_stdout Level.trace 50 [] (by decide) (by decide)).1

/-- Claim C6, counterexample: the timestamp is prepended to the record's
message field, so the combined variant renders
`LEVEL: [pid]: name: [timestamp] message`, not
`[timestamp] LEVEL: [pid]: name: message` as the claim's template says. -/
theorem c6_counterexample :
    renderRecord Variant.TimestampingParallelLog ⟨2021, 1, 2, 3, 4, 5, 6⟩
        ⟨INFO, "x", "hi", 42⟩
      = "INFO: [42]: x: [20210102030405.000006] hi"
  ∧ renderRecord Variant.TimestampingParallelLog ⟨2021, 1, 2, 3, 4, 5, 6⟩
        ⟨INFO, "x", "hi", 42⟩
      ≠ "[20210102030405.000006] INFO: [42]: x: hi" := by decide

/-- Claim C6, amended: DefaultLog renders `LEVEL: name: message`,
ParallelLog renders `LEVEL: [pid]: name: message`; the timestamping
variants prepend `[YYYYMMDDHHMMSS.ffffff] ` exactly once to the message
before formatting, so they render `LEVEL: name: [timestamp] message` and
`LEVEL: [pid]: name: [timestamp] message` respectively; the combined
variant adds no code of its own — it reuses ParallelLog's template and
TimestampingLog's filter. -/
theorem c6_render_templates :
    (∀ (now : DateTime) (r : LogRecord),
      renderRecord Variant.DefaultLog now r
        = getLevelName r.levelno ++ ": " ++ r.name ++ ": " ++ r.msg)
  ∧ (∀ (now : DateTime) (r : LogRecord),
      renderRecord Variant.ParallelLog now r
        = getLevelName r.levelno ++ ": [" ++ toString r.process ++ "]: "
            ++ r.name ++ ": " ++ r.msg)
  ∧ (∀ (now : DateTime) (r : LogRecord),
      renderRecord Variant.TimestampingLog now r
        = getLevelName r.levelno ++ ": " ++ r.name ++ ": "
            ++ ("[" ++ strftimeTimestamp now ++ "] " ++ r.msg))
  ∧ (∀ (now : DateTime) (r : LogRecord),
      renderRecord Variant.TimestampingParallelLog now r
        = getLevelName r.levelno ++ ": [" ++ toString r.process ++ "]: "
            ++ r.name ++ ": " ++ ("[" ++ strftimeTimestamp now ++ "] " ++ r.msg))
  ∧ variantFORMAT Variant.TimestampingParallelLog
      = variantFORMAT Variant.ParallelLog
  ∧ hasTimestampFilter Variant.TimestampingParallelLog
      = hasTimestampFilter Variant.TimestampingLog := by
  exact ⟨fun now r => rfl, fun now r => rfl, fun now r => rfl,
    fun now r => rfl, rfl, rfl⟩

/-- Claim C7: with colorization off (the class default), the formatter
returns the rendered line unchanged; with colorization on, the line is
wrapped in exactly the level's color code and one reset sequence for the
six mapped level names, and returned unchanged for any level name absent
from the color table, such as OFF. -/
theorem c7_colorization :
    USE_COLORS = false
  ∧ (∀ (fmt : LogRecord → String) (r : LogRecord),
      CdistFormatter_format false fmt r = fmt r)
  ∧ (∀ (fmt : LogRecord → String) (r : LogRecord), r.levelno = ERROR →
      CdistFormatter_format true fmt r = "\x1b[0;31m" ++ fmt r ++ RESET)
  ∧ (∀ (fmt : LogRecord → String) (r : LogRecord), r.levelno = WARNING →
      CdistFormatter_format true fmt r = "\x1b[0;33m" ++ fmt r ++ RESET)
  ∧ (∀ (fmt : LogRecord → String) (r : LogRecord), r.levelno = INFO →
      CdistFormatter_format true fmt r = "\x1b[0;94m" ++ fmt r ++ RESET)
  ∧ (∀ (fmt : LogRecord → String) (r : LogRecord), r.levelno = VERBOSE →
      CdistFormatter_format true fmt r = "\x1b[0;34m" ++ fmt r ++ RESET)
  ∧ (∀ (fmt : LogRecord → String) (r : LogRecord), r.levelno = DEBUG →
      CdistFormatter_format true fmt r = "\x1b[0;90m" ++ fmt r ++ RESET)
  ∧ (∀ (fmt : LogRecord → String) (r : LogRecord), r.levelno = TRACE →
      CdistFormatter_format true fmt r = "\x1b[0;37m" ++ fmt r ++ RESET)
  ∧ (∀ (fmt : LogRecord → String) (r : LogRecord),
      COLOR_MAP (getLevelName r.levelno) = none →
      CdistFormatter_format true fmt r = fmt r)
  ∧ COLOR_MAP (getLevelName OFF) = none := by
  refine ⟨rfl, fun fmt r => rfl, ?_, ?_, ?_, ?_, ?_, ?_, ?_, by decide⟩
  all_goals intro fmt r h
  all_goals simp only [CdistFormatter_format, h]
  all_goals rfl

/-- Claim C7, witness: an ERROR record rendered with colors on. -/
theorem c7_witness :
    ((⟨ERROR, "x", "m", 1⟩ : LogRecord)).levelno = ERROR
  ∧ CdistFormatter_format true formatDefault ⟨ERROR, "x", "m", 1⟩
      = "\x1b[0;31m" ++ formatDefault ⟨ERROR, "x", "m", 1⟩ ++ RESET :=
  ⟨rfl, c7_colorization.2.2.1 formatDefault ⟨ERROR, "x", "m", 1⟩ rfl⟩

/-- Claim C8: each setup operation rewrites exactly the root handler list
(to empty) and the installed logger class (to its variant), leaving the
already-constructed loggers untouched; module load performs exactly the
one call `setupDefaultLogging()`; a logger built before a setup call keeps
the class that was installed when it was built, and only loggers built
afterwards get the new variant. -/
theorem c8_setup_ops :
    (∀ (op : SetupOp) (s : LoggingState),
      runSetup op s = { s with rootHandlers := [], loggerClass := variantOf op })
  ∧ (∀ (op : SetupOp) (s : LoggingState),
      (runSetup op s).constructed = s.constructed)
  ∧ moduleLoadCalls = [SetupOp.defaultLogging]
  ∧ (∀ s : LoggingState, (moduleInit s).loggerClass = Variant.DefaultLog
      ∧ (moduleInit s).rootHandlers = []
      ∧ (moduleInit s).constructed = s.constructed)
  ∧ (∀ (s : LoggingState) (nm : String),
      (getLogger s nm).1 = buildLogger s.loggerClass nm)
  ∧ (∀ (op : SetupOp) (s : LoggingState) (nm : String),
      (getLogger (runSetup op s) nm).1 = buildLogger (variantOf op) nm) := by
  refine ⟨fun op s => ?_, fun op s => ?_, rfl, fun s => ⟨rfl, rfl, rfl⟩,
    fun s nm => rfl, fun op s nm => ?_⟩
  · cases op <;> rfl
  · cases op <;> rfl
  · cases op <;> rfl

/-- Claim C9: the patched `logging.Logger.trace` and `DefaultLog.trace`
pass their positional arguments identically, but the patched
`logging.Logger.verbose` passes the whole argument tuple as a single
positional argument, so its record's args field is the one-element tuple
holding that tuple, and for every non-empty argument list it differs from
what `DefaultLog.verbose` produces. -/
theorem c9_arg_passing :
    (∀ (msg : String) (args : List PyVal),
      patched_trace msg args = DefaultLog_trace msg args)
  ∧ (∀ (msg : String) (args : List PyVal),
      (patched_verbose msg args).args = [PyVal.tup args])
  ∧ (∀ (msg : String) (args : List PyVal), args ≠ [] →
      patched_verbose msg args ≠ DefaultLog_verbose msg args) := by
  refine ⟨fun msg args => rfl, fun msg args => rfl, fun msg args h he => ?_⟩
  have hargs : [PyVal.tup args] = args := congrArg CallRecord.args he
  exact pyval_singleton_tup_ne args h hargs

/-- Claim C9, witness at the single positional argument 1. -/
theorem c9_witness :
    ([PyVal.i 1] : List PyVal) ≠ []
  ∧ patched_verbose "m" [PyVal.i 1] ≠ DefaultLog_verbose "m" [PyVal.i 1] :=
  ⟨by simp, c9_arg_passing.2.2 "m" [PyVal.i 1] (by simp)⟩

/-- Claim C10: `TimestampingLog.filter` returns True for every record and
every list of attached filters — the inherited verdict is computed and
discarded, so the result does not depend on the attached filters at all,
and the record's message always receives the timestamp tag, even when an
attached filter rejects the record. -/
theorem c10_filter_always_true :
    (∀ (fs : List (LogRecord → Bool)) (now : DateTime) (r : LogRecord),
      (TimestampingLog_filter fs now r).1 = true)
  ∧ (∀ (fs gs : List (LogRecord → Bool)) (now : DateTime) (r : LogRecord),
      TimestampingLog_filter fs now r = TimestampingLog_filter gs now r)
  ∧ (∀ (fs : List (LogRecord → Bool)) (now : DateTime) (r : LogRecord),
      (TimestampingLog_filter fs now r).2.msg
        = "[" ++ strftimeTimestamp now ++ "] " ++ r.msg)
  ∧ (∀ (now : DateTime) (r : LogRecord),
      Logger_filter [fun _ => false] r = false
      ∧ (TimestampingLog_filter [fun _ => false] now r).1 = true) :=
  ⟨fun _ _ _ => rfl, fun _ _ _ _ => rfl, fun _ _ _ => rfl,
    fun _ _ => ⟨rfl, rfl⟩⟩

end CdistLog
